import Mathlib

/-!
Verification of the seller/agent matching engine of `app_realestate.py`.

The Python program stores requester ("seller") and candidate ("agent")
profiles as dictionaries and reads fields with `dict.get(key, default)`.
We embed a dictionary as a structure of `Option` fields: `none` models an
absent key, and `.getD` models `dict.get` with a default. Python `float`
arithmetic in the price ratio and the rating threshold is embedded as
exact rational arithmetic over `ℚ`. A Python expression that raises
(`ZeroDivisionError` in the price factor) is embedded by returning `none`
from the scoring function.
-/

/-- Per-factor point map returned by `calculate_match_score`
(the `score_breakdown` dictionary, one field per factor). -/
structure Breakdown where
  location : Int
  price_compatibility : Int
  timeline : Int
  communication : Int
  experience : Int
  specialization : Int
  personality : Int
  tech_savvy : Int
deriving DecidableEq, Repr

/-- Requester ("seller") profile dictionary: every key the scoring engine
reads, `none` when the key is absent. -/
structure Seller where
  zip_code : Option String := none
  city : Option String := none
  state : Option String := none
  home_value : Option Int := none
  timeline : Option String := none
  communication_preference : Option String := none
  first_time_seller : Option Bool := none
  property_type : Option String := none
  personality : Option String := none
  prefers_digital : Option Bool := none
deriving DecidableEq, Repr

/-- Candidate ("agent") profile dictionary: the keys built by the
generator plus the keys later written by `rank_agents`
(`match_score`, `match_breakdown`) and by Super Like (`super_liked`). -/
structure Agent where
  id : Option Nat := none
  name : Option String := none
  first_name : Option String := none
  last_name : Option String := none
  brokerage : Option String := none
  years_experience : Option Int := none
  recent_sales : Option Int := none
  avg_sale_price : Option Int := none
  total_volume : Option Int := none
  rating : Option ℚ := none
  review_count : Option Nat := none
  phone : Option String := none
  email : Option String := none
  city : Option String := none
  state : Option String := none
  zip_code : Option String := none
  specializations : Option (List String) := none
  tech_score : Option Int := none
  personality : Option String := none
  communication_style : Option String := none
  availability : Option String := none
  languages : Option (List String) := none
  super_liked : Option Bool := none
  match_score : Option Int := none
  match_breakdown : Option Breakdown := none
deriving DecidableEq, Repr

/-- Factor 1, location match (25 points): zip equal 25, else city equal 20,
else state equal 10, else 0. Absent keys compare as Python `None`. -/
def locationScore (seller : Seller) (agent : Agent) : Int :=
  if seller.zip_code = agent.zip_code then 25
  else if seller.city = agent.city then 20
  else if seller.state = agent.state then 10
  else 0

/-- Factor 2, price range compatibility (20 points), for a nonzero seller
price: ratio `|seller_price - agent_avg_price| / seller_price` bucketed at
0.1 / 0.25 / 0.5. -/
def priceScore (seller_price agent_avg_price : Int) : Int :=
  let r : ℚ := ((seller_price - agent_avg_price).natAbs : ℚ) / (seller_price : ℚ)
  if r < 0.1 then 20
  else if r < 0.25 then 15
  else if r < 0.5 then 10
  else 5

/-- Factor 3, timeline match (15 points): ASAP with immediate availability
gives 15; a 1-3 or 3-6 month timeline gives 12; anything else 8. -/
def timelineScore (seller : Seller) (agent : Agent) : Int :=
  let seller_timeline := seller.timeline.getD "3-6 months"
  let agent_availability := agent.availability.getD "immediate"
  if seller_timeline = "ASAP" ∧ agent_availability = "immediate" then 15
  else if seller_timeline = "1-3 months" ∨ seller_timeline = "3-6 months" then 12
  else 8

/-- Factor 4, communication preferences (10 points). -/
def communicationScore (seller : Seller) (agent : Agent) : Int :=
  let seller_comm := seller.communication_preference.getD "balanced"
  let agent_style := agent.communication_style.getD "balanced"
  if seller_comm = agent_style then 10
  else if seller_comm = "frequent" ∧ (agent_style = "frequent" ∨ agent_style = "balanced") then 8
  else 5

/-- Factor 5, experience level match (10 points): first-time sellers get a
tiered score by years of experience, others a flat 8. -/
def experienceScore (seller : Seller) (agent : Agent) : Int :=
  if seller.first_time_seller.getD false then
    if 7 < agent.years_experience.getD 5 then 10
    else if 3 < agent.years_experience.getD 5 then 7
    else 4
  else 8

/-- Factor 6, specialization match (10 points). -/
def specializationScore (seller : Seller) (agent : Agent) : Int :=
  let seller_property_type := seller.property_type.getD "Single Family"
  let agent_specializations := agent.specializations.getD []
  if seller_property_type ∈ agent_specializations then 10
  else if "All Types" ∈ agent_specializations then 7
  else 4

/-- Factor 7, personality match (5 points). -/
def personalityScore (seller : Seller) (agent : Agent) : Int :=
  if seller.personality.getD "professional" = agent.personality.getD "professional" then 5
  else 3

/-- Factor 8, tech preference match (5 points). -/
def techSavvyScore (seller : Seller) (agent : Agent) : Int :=
  if seller.prefers_digital.getD false then
    if 70 < agent.tech_score.getD 50 then 5
    else if 50 < agent.tech_score.getD 50 then 3
    else 1
  else 3

/-- Sum of the eight breakdown entries (`sum(score_breakdown.values())`). -/
def sumB (bd : Breakdown) : Int :=
  bd.location + bd.price_compatibility + bd.timeline + bd.communication +
    bd.experience + bd.specialization + bd.personality + bd.tech_savvy

/-- ML-style bonus adjustments applied to the total but not recorded in the
breakdown: +5 for rating at least 4.5, +3 for more than 20 recent sales. -/
def mlBonus (agent : Agent) : Int :=
  (if (4.5 : ℚ) ≤ agent.rating.getD 0 then 5 else 0) +
    (if 20 < agent.recent_sales.getD 0 then 3 else 0)

/-- Python built-in `min` on two integers: the first argument when the two
are equal, as in `min(100, total_score)`. -/
def pymin (a b : Int) : Int := if a ≤ b then a else b

/-- Embedding of `MLMatchingEngine.calculate_match_score`. Returns `none`
exactly when the Python code raises `ZeroDivisionError`, i.e. when the
seller price anchor `seller.get('home_value', 500000)` is zero. -/
def calculate_match_score (seller : Seller) (agent : Agent) : Option (Int × Breakdown) :=
  let seller_price := seller.home_value.getD 500000
  let agent_avg_price := agent.avg_sale_price.getD 500000
  if seller_price = 0 then none
  else
    let bd : Breakdown :=
      { location := locationScore seller agent
        price_compatibility := priceScore seller_price agent_avg_price
        timeline := timelineScore seller agent
        communication := communicationScore seller agent
        experience := experienceScore seller agent
        specialization := specializationScore seller agent
        personality := personalityScore seller agent
        tech_savvy := techSavvyScore seller agent }
    some (pymin 100 (sumB bd + mlBonus agent), bd)

/-- Scenario A requester profile. -/
def sellerA : Seller :=
  { zip_code := some "94105", home_value := some 500000, timeline := some "ASAP",
    communication_preference := some "frequent", personality := some "professional",
    property_type := some "Single Family", first_time_seller := some true,
    prefers_digital := some true }

/-- Scenario A candidate profile. -/
def agentA : Agent :=
  { zip_code := some "94105", avg_sale_price := some 520000,
    availability := some "immediate", communication_style := some "frequent",
    personality := some "professional", specializations := some ["Single Family"],
    years_experience := some 9, tech_score := some 80, rating := some 4,
    recent_sales := some 10 }

/-- One iteration of the loop in `rank_agents`: score the agent and write
the keys `match_score` and `match_breakdown` into its record. `none` when
scoring raises. -/
def addScore (seller : Seller) (agent : Agent) : Option Agent :=
  (calculate_match_score seller agent).map fun sb =>
    { agent with match_score := some sb.1, match_breakdown := some sb.2 }

/-- Sort key used by `agents.sort(key=lambda x: x['match_score'], reverse=True)`. -/
def rankKey (agent : Agent) : Int := agent.match_score.getD 0

/-- Comparison realised by Python's stable descending sort on `rankKey`:
an element goes before another exactly when its key is at least as large;
on ties the earlier element stays first. -/
def rankRel (x y : Agent) : Prop := rankKey y ≤ rankKey x

instance : DecidableRel rankRel := fun x y => by
  unfold rankRel; infer_instance

/-- Embedding of `MLMatchingEngine.rank_agents`: write scores into every
record, then stable-sort descending by `match_score`. `none` when any
scoring call raises. -/
def rank_agents (seller : Seller) (agents : List Agent) : Option (List Agent) :=
  match agents.mapM (addScore seller) with
  | none => none
  | some scored => some (scored.insertionSort rankRel)

/-!
Heap model of `rank_agents` for its in-place effects. Python passes the
agents list by reference: the loop mutates each agent dictionary in place
and `agents.sort(...)` reorders the very list object that the caller still
holds, which `return agents` then hands back. We model the dictionaries as
entries of an explicit store and the list as a list of store indices; the
function returns the updated store together with the reordered index list,
and the caller's aliases are the original indices into that store.
-/

/-- Store of agent records; a Python reference to an agent dictionary is
an index into the store. -/
abbrev AgentStore : Type := List Agent

/-- First phase of `rank_agents` on the heap model: walk the index list and
write `match_score`/`match_breakdown` into each referenced record. -/
def writeScores (seller : Seller) : List Nat → AgentStore → Option AgentStore
  | [], store => some store
  | p :: ps, store =>
    match calculate_match_score seller (store.getD p {}) with
    | none => none
    | some sb =>
        writeScores seller ps
          (store.set p { store.getD p {} with
            match_score := some sb.1, match_breakdown := some sb.2 })

/-- Sort key of a store index: the `match_score` of the record it points to. -/
def ptrKey (store : AgentStore) (p : Nat) : Int := rankKey (store.getD p {})

/-- Ordering of store indices used by the in-place sort. -/
def ptrRel (store : AgentStore) (p q : Nat) : Prop := ptrKey store q ≤ ptrKey store p

instance (store : AgentStore) : DecidableRel (ptrRel store) := fun p q => by
  unfold ptrRel; infer_instance

/-- Heap-model embedding of `rank_agents`: mutate every referenced record,
then reorder the caller's index list in place (stable, descending). -/
def rank_agents_heap (seller : Seller) (store : AgentStore) (ptrs : List Nat) :
    Option (AgentStore × List Nat) :=
  match writeScores seller ptrs store with
  | none => none
  | some store' => some (store', ptrs.insertionSort (ptrRel store'))

/-!
Review-queue state machines. The "agent inbox" lead queue (Reject /
Accept / Defer) and the seller-side swipe queue (Pass / Like / Super Like
/ Skip to Results) both live in `main` as Streamlit session state; we
model each as a record and each button press as a state transition. The
decision buttons are rendered only while `cursor < length`, so each
transition is the identity on a terminal state.
-/

/-- Session state of the agent-inbox lead review queue, generic in the
lead type: the list being iterated, the cursor `lead_index`, and the two
output collections. -/
structure LeadQueue (α : Type) where
  seller_leads : List α
  lead_index : Nat
  rejected_sellers : List α
  accepted_sellers : List α
deriving Repr

/-- Maybe Later button: append the lead at the cursor to the tail of the
list being iterated, then advance the cursor. -/
def deferLead {α : Type} (st : LeadQueue α) : LeadQueue α :=
  if h : st.lead_index < st.seller_leads.length then
    { st with
      seller_leads := st.seller_leads ++ [st.seller_leads.get ⟨st.lead_index, h⟩]
      lead_index := st.lead_index + 1 }
  else st

/-- Run of `n` consecutive Defer decisions. -/
def deferN {α : Type} : Nat → LeadQueue α → LeadQueue α
  | 0, st => st
  | n + 1, st => deferN n (deferLead st)

/-- Session state of the seller-side swipe queue over scored agents. -/
structure SwipeQueue where
  current_matches : List Agent
  swipe_index : Nat
  rejected_agents : List Agent
  liked_agents : List Agent
deriving Repr

/-- Like button: append the agent at the cursor to the tail of
`liked_agents`, then advance the cursor. -/
def likeAgent (st : SwipeQueue) : SwipeQueue :=
  if h : st.swipe_index < st.current_matches.length then
    { st with
      liked_agents := st.liked_agents ++ [st.current_matches.get ⟨st.swipe_index, h⟩]
      swipe_index := st.swipe_index + 1 }
  else st

/-- Effect of `agent['super_liked'] = True`: the dictionary itself is
mutated, so the change is visible through every reference to it. -/
def markSuperLiked (agent : Agent) : Agent := { agent with super_liked := some true }

/-- Super Like button: set the agent's `super_liked` key (in place, hence
also in `current_matches`), insert the agent at the head of
`liked_agents`, then advance the cursor. -/
def superLikeAgent (st : SwipeQueue) : SwipeQueue :=
  if h : st.swipe_index < st.current_matches.length then
    let agent := markSuperLiked (st.current_matches.get ⟨st.swipe_index, h⟩)
    { st with
      current_matches := st.current_matches.set st.swipe_index agent
      liked_agents := agent :: st.liked_agents
      swipe_index := st.swipe_index + 1 }
  else st

/-- Pass button: append the agent at the cursor to `rejected_agents`, then
advance the cursor. -/
def rejectAgent (st : SwipeQueue) : SwipeQueue :=
  if h : st.swipe_index < st.current_matches.length then
    { st with
      rejected_agents := st.rejected_agents ++ [st.current_matches.get ⟨st.swipe_index, h⟩]
      swipe_index := st.swipe_index + 1 }
  else st

/-!
Embedding of `AgentGenerator.generate_agents_for_location`. The Python
code draws from the ambient `random` module; following the design note
that randomness is an injected seeded source, we thread an explicit
linear-congruential generator state through every draw. Every claim about
the generator below is proved for all generator states.
-/

/-- One step of the injected pseudo-random source. -/
def nextRand (g : Nat) : Nat × Nat :=
  let g1 := (1103515245 * g + 12345) % 2147483648
  (g1, g1)

/-- Uniform draw in `[0, n)` (for `n > 0`). -/
def randBelow (n g : Nat) : Nat × Nat :=
  let vg := nextRand g
  (vg.1 % n, vg.2)

/-- Model of `random.randint(a, b)`: uniform integer in `[a, b]`. -/
def randintR (a b g : Nat) : Nat × Nat :=
  let vg := randBelow (b + 1 - a) g
  (a + vg.1, vg.2)

/-- Model of `random.choice(l)` for a nonempty list `l`, with an explicit
default for the (unreachable) empty case. -/
def chooseR {α : Type} (l : List α) (d : α) (g : Nat) : α × Nat :=
  let ig := randBelow l.length g
  (l.getD ig.1 d, ig.2)

/-- Model of `random.random()`: a rational in `[0, 1)`. -/
def randFloatR (g : Nat) : ℚ × Nat :=
  let vg := nextRand g
  ((vg.1 : ℚ) / 2147483648, vg.2)

/-- Model of `random.uniform(a, b)`. -/
def uniformR (a b : ℚ) (g : Nat) : ℚ × Nat :=
  let ug := randFloatR g
  (a + (b - a) * ug.1, ug.2)

/-- Model of Python `round(x, 1)`. -/
def pyround1 (x : ℚ) : ℚ := ((x * 10 + 1 / 2).floor : ℚ) / 10

/-- Male first-name pool of the generator. -/
def first_names_male : List String :=
  ["James", "John", "Robert", "Michael", "William", "David", "Richard",
   "Joseph", "Charles", "Thomas"]

/-- Female first-name pool of the generator. -/
def first_names_female : List String :=
  ["Mary", "Patricia", "Jennifer", "Linda", "Elizabeth", "Barbara", "Susan",
   "Jessica", "Sarah", "Karen"]

/-- Last-name pool of the generator. -/
def last_names : List String :=
  ["Smith", "Johnson", "Williams", "Brown", "Jones", "Garcia", "Miller",
   "Davis", "Rodriguez", "Martinez", "Chen", "Park", "Kim", "Lee", "Wong",
   "Singh", "Patel", "Anderson", "Taylor", "Thomas"]

/-- The `brokerages_by_state` dictionary. -/
def brokerages_by_state : List (String × List String) :=
  [("CA", ["Compass", "Coldwell Banker", "Keller Williams", "RE/MAX",
           "Sotheby\x27s", "Berkshire Hathaway"]),
   ("NY", ["Douglas Elliman", "Compass", "Corcoran", "Brown Harris Stevens",
           "Halstead"]),
   ("TX", ["Keller Williams", "RE/MAX", "Century 21", "Berkshire Hathaway",
           "Compass"]),
   ("FL", ["Coldwell Banker", "RE/MAX", "Keller Williams", "Compass",
           "EXP Realty"])]

/-- Resolution `brokerages_by_state.get(state, [...])`: the locale table,
with the generic fallback for an unrecognized state. -/
def brokeragesFor (state : String) : List String :=
  (brokerages_by_state.lookup state).getD
    ["RE/MAX", "Century 21", "Keller Williams", "Coldwell Banker"]

/-- The `area_codes` dictionary. -/
def area_codes : List (String × List String) :=
  [("CA", ["415", "510", "650", "408", "925", "707"]),
   ("NY", ["212", "718", "646", "917", "516", "631"]),
   ("TX", ["512", "713", "214", "817", "210", "361"]),
   ("FL", ["305", "786", "954", "561", "407", "813"])]

/-- Resolution `area_codes.get(state, ['555'])`. -/
def areaCodesFor (state : String) : List String :=
  (area_codes.lookup state).getD ["555"]

/-- The `property_specializations` pool. -/
def property_specializations : List (List String) :=
  [["Single Family", "Condos"], ["Luxury Homes", "Waterfront"],
   ["First-time Buyers", "Condos"], ["Investment Properties", "Multi-family"],
   ["All Types"], ["Senior Living", "Downsizing"],
   ["New Construction", "Land"], ["Historic Homes", "Unique Properties"]]

/-- The personality pool. -/
def personalities : List String :=
  ["professional", "friendly", "analytical", "enthusiastic", "patient",
   "aggressive"]

/-- The communication-style pool. -/
def comm_styles : List String :=
  ["frequent", "balanced", "minimal", "digital-first", "traditional"]

/-- Model of `random.choices(bands, weights=[30,40,20,10])[0]` as used for
years of experience: Python first evaluates all four `randint` band draws,
then selects one band by a weighted draw. -/
def drawYearsExp (g : Nat) : Nat × Nat :=
  let b1 := randintR 1 3 g
  let b2 := randintR 4 7 b1.2
  let b3 := randintR 8 15 b2.2
  let b4 := randintR 16 30 b3.2
  let u := randBelow 100 b4.2
  (if u.1 < 30 then b1.1 else if u.1 < 70 then b2.1
   else if u.1 < 90 then b3.1 else b4.1, u.2)

/-- Body of the generation loop: build agent number `i` (its `id` is
`i + 1`) for the given location, threading the random state. -/
def generateAgent (i : Nat) (zip_code city state : String) (g : Nat) : Agent × Nat :=
  let brokerages := brokeragesFor state
  let local_area_codes := areaCodesFor state
  let rfem := randFloatR g
  let is_female := (1 / 2 : ℚ) < rfem.1
  let fn := chooseR (if is_female then first_names_female else first_names_male) "" rfem.2
  let ln := chooseR last_names "" fn.2
  let yg := drawYearsExp ln.2
  let years_exp := yg.1
  let rs :=
    if years_exp < 3 then randintR 3 12 yg.2
    else if years_exp < 8 then randintR 10 25 yg.2
    else if years_exp < 15 then randintR 15 40 yg.2
    else randintR 20 60 yg.2
  let asp :=
    if years_exp < 3 then randintR 200000 500000 rs.2
    else if years_exp < 8 then randintR 300000 700000 rs.2
    else if years_exp < 15 then randintR 400000 900000 rs.2
    else randintR 350000 1200000 rs.2
  let ts :=
    if years_exp < 5 then randintR 65 95 asp.2
    else if years_exp < 10 then randintR 50 85 asp.2
    else if years_exp < 20 then randintR 35 70 asp.2
    else randintR 25 60 asp.2
  let bk := chooseR brokerages "" ts.2
  let tech_score : Int :=
    if bk.1 = "Compass" ∨ bk.1 = "EXP Realty" then pymin 100 ((ts.1 : Int) + 15)
    else (ts.1 : Int)
  let ac := chooseR local_area_codes "" bk.2
  let ph1 := randintR 200 999 ac.2
  let ph2 := randintR 1000 9999 ph1.2
  let phone := "(" ++ ac.1 ++ ") " ++ toString ph1.1 ++ "-" ++ toString ph2.1
  let email_domain := ((bk.1.toLower).replace " " "").replace "\x27" ""
  let email := fn.1.toLower ++ "." ++ ln.1.toLower ++ "@" ++ email_domain ++ ".com"
  let rat := uniformR 3.5 5.0 ph2.2
  let rc := randintR 5 200 rat.2
  let sp := chooseR property_specializations [] rc.2
  let pers := chooseR personalities "" sp.2
  let cs := chooseR comm_styles "" pers.2
  let av := chooseR ["immediate", "1 week", "2 weeks", "1 month"] "" cs.2
  let lg := chooseR [["Spanish"], ["Mandarin"], ["French"], []] [] av.2
  ({ id := some (i + 1)
     name := some (fn.1 ++ " " ++ ln.1)
     first_name := some fn.1
     last_name := some ln.1
     brokerage := some bk.1
     years_experience := some (years_exp : Int)
     recent_sales := some (rs.1 : Int)
     avg_sale_price := some (asp.1 : Int)
     total_volume := some ((asp.1 : Int) * (rs.1 : Int))
     rating := some (pyround1 rat.1)
     review_count := some rc.1
     phone := some phone
     email := some email
     city := some city
     state := some state
     zip_code := some zip_code
     specializations := some sp.1
     tech_score := some tech_score
     personality := some pers.1
     communication_style := some cs.1
     availability := some av.1
     languages := some (["English"] ++ lg.1) }, lg.2)

/-- The `for i in range(count)` loop of the generator, accumulating the
agents in order. -/
def genLoop (zip_code city state : String) : Nat → Nat → Nat → List Agent × Nat
  | 0, _, g => ([], g)
  | n + 1, i, g =>
    let ag := generateAgent i zip_code city state g
    let rest := genLoop zip_code city state n (i + 1) ag.2
    (ag.1 :: rest.1, rest.2)

/-- Embedding of `AgentGenerator.generate_agents_for_location`. -/
def generate_agents_for_location (zip_code city state : String) (count : Nat)
    (g : Nat) : List Agent × Nat :=
  genLoop zip_code city state count 0 g

/-! Range lemmas for the eight factors and the bonus. -/

theorem locationScore_bounds (s : Seller) (a : Agent) :
    0 ≤ locationScore s a ∧ locationScore s a ≤ 25 := by
  unfold locationScore; split_ifs <;> norm_num

theorem priceScore_bounds (x y : Int) : 5 ≤ priceScore x y ∧ priceScore x y ≤ 20 := by
  simp only [priceScore]; split_ifs <;> norm_num

theorem timelineScore_bounds (s : Seller) (a : Agent) :
    8 ≤ timelineScore s a ∧ timelineScore s a ≤ 15 := by
  simp only [timelineScore]; split_ifs <;> norm_num

theorem communicationScore_bounds (s : Seller) (a : Agent) :
    5 ≤ communicationScore s a ∧ communicationScore s a ≤ 10 := by
  simp only [communicationScore]; split_ifs <;> norm_num

theorem experienceScore_bounds (s : Seller) (a : Agent) :
    4 ≤ experienceScore s a ∧ experienceScore s a ≤ 10 := by
  unfold experienceScore; split_ifs <;> norm_num

theorem specializationScore_bounds (s : Seller) (a : Agent) :
    4 ≤ specializationScore s a ∧ specializationScore s a ≤ 10 := by
  simp only [specializationScore]; split_ifs <;> norm_num

theorem personalityScore_bounds (s : Seller) (a : Agent) :
    3 ≤ personalityScore s a ∧ personalityScore s a ≤ 5 := by
  unfold personalityScore; split_ifs <;> norm_num

theorem techSavvyScore_bounds (s : Seller) (a : Agent) :
    1 ≤ techSavvyScore s a ∧ techSavvyScore s a ≤ 5 := by
  unfold techSavvyScore; split_ifs <;> norm_num

theorem mlBonus_bounds (a : Agent) : 0 ≤ mlBonus a ∧ mlBonus a ≤ 8 := by
  unfold mlBonus; split_ifs <;> norm_num

/-- Characterization of a successful scoring call: the returned breakdown
is the eight factor scores and the total is the capped bonus -adjusted sum. -/
theorem calculate_match_score_eq_some (s : Seller) (a : Agent) (t : Int) (bd : Breakdown)
    (h : calculate_match_score s a = some (t, bd)) :
    bd = { location := locationScore s a
           price_compatibility := priceScore (s.home_value.getD 500000) (a.avg_sale_price.getD 500000)
           timeline := timelineScore s a
           communication := communicationScore s a
           experience := experienceScore s a
           specialization := specializationScore s a
           personality := personalityScore s a
           tech_savvy := techSavvyScore s a } ∧
    t = pymin 100 (sumB bd + mlBonus a) := by
  unfold calculate_match_score at h
  by_cases hz : s.home_value.getD 500000 = 0
  · simp [hz] at h
  · simp only [if_neg hz, Option.some.injEq, Prod.mk.injEq] at h
    obtain ⟨ht, hbd⟩ := h
    exact ⟨hbd.symm, by rw [← ht, hbd]⟩

/-- Bounds on the sum of the returned breakdown. -/
theorem sumB_bounds (s : Seller) (a : Agent) (t : Int) (bd : Breakdown)
    (h : calculate_match_score s a = some (t, bd)) :
    30 ≤ sumB bd ∧ sumB bd ≤ 100 := by
  obtain ⟨hbd, -⟩ := calculate_match_score_eq_some s a t bd h
  have h1 := locationScore_bounds s a
  have h2 := priceScore_bounds (s.home_value.getD 500000) (a.avg_sale_price.getD 500000)
  have h3 := timelineScore_bounds s a
  have h4 := communicationScore_bounds s a
  have h5 := experienceScore_bounds s a
  have h6 := specializationScore_bounds s a
  have h7 := personalityScore_bounds s a
  have h8 := techSavvyScore_bounds s a
  subst hbd
  simp only [sumB]
  omega

/-- C2: whenever `Score` returns, the eight breakdown entries sum into
`[0, 100]`, and the returned total equals
`clamp(sum(breakdown) + bonuses, 0, 100)` with bonuses +5 for a rating of
at least 4.5 and +3 for more than 20 recent sales, the bonuses being added
to the total only and never to a breakdown entry. -/
theorem spec_C2_breakdown_invariant (s : Seller) (a : Agent) (t : Int) (bd : Breakdown)
    (h : calculate_match_score s a = some (t, bd)) :
    (0 ≤ sumB bd ∧ sumB bd ≤ 100) ∧
    t = max 0 (min 100 (sumB bd +
      ((if (4.5 : ℚ) ≤ a.rating.getD 0 then 5 else 0) +
        (if 20 < a.recent_sales.getD 0 then 3 else 0)))) := by
  obtain ⟨hlo, hhi⟩ := sumB_bounds s a t bd h
  obtain ⟨-, ht⟩ := calculate_match_score_eq_some s a t bd h
  have hbonus : (0 : Int) ≤ mlBonus a ∧ mlBonus a ≤ 8 := mlBonus_bounds a
  refine ⟨⟨by omega, hhi⟩, ?_⟩
  have hmin : pymin 100 (sumB bd + mlBonus a) = min 100 (sumB bd + mlBonus a) := by
    rw [min_def]; unfold pymin; rfl
  have hmax : max 0 (min 100 (sumB bd + mlBonus a)) = min 100 (sumB bd + mlBonus a) := by
    rw [max_eq_right]
    rw [min_def]
    split_ifs <;> omega
  rw [ht, hmin, ← hmax]
  rfl

/-- Concrete Scenario A scoring fact, reused to discharge witness
hypotheses about a successful scoring call. -/
theorem scoreA_eq : calculate_match_score sellerA agentA =
    some (100, ⟨25, 20, 15, 10, 10, 10, 5, 5⟩) := by
  norm_num [calculate_match_score, locationScore, priceScore, timelineScore,
    communicationScore, experienceScore, specializationScore, personalityScore,
    techSavvyScore, sumB, mlBonus, pymin, sellerA, agentA]

/-- Witness for C2 at the Scenario A inputs. -/
theorem spec_C2_breakdown_invariant_witness :
    calculate_match_score sellerA agentA = some (100, ⟨25, 20, 15, 10, 10, 10, 5, 5⟩) ∧
    ((0 ≤ sumB ⟨25, 20, 15, 10, 10, 10, 5, 5⟩ ∧ sumB ⟨25, 20, 15, 10, 10, 10, 5, 5⟩ ≤ 100) ∧
      (100 : Int) = max 0 (min 100 (sumB ⟨25, 20, 15, 10, 10, 10, 5, 5⟩ +
        ((if (4.5 : ℚ) ≤ agentA.rating.getD 0 then 5 else 0) +
          (if 20 < agentA.recent_sales.getD 0 then 3 else 0))))) :=
  ⟨scoreA_eq, spec_C2_breakdown_invariant sellerA agentA 100 _ scoreA_eq⟩

/-- Requester dictionary whose `home_value` key is present and zero. -/
def sellerZeroValue : Seller := { home_value := some 0 }

/-- C1 is violated by the code: with a requester value anchor of zero the
price-factor division `abs(seller_price - agent_avg_price) / seller_price`
raises `ZeroDivisionError` (embedded as `none`), so `Score` neither
returns a price factor of 5 nor returns at all. -/
theorem spec_C1_zero_value_raises :
    calculate_match_score sellerZeroValue {} = none := rfl

/-- C4: with requester timeline ASAP and a non-immediate candidate
availability, the timeline factor of the returned breakdown is exactly 8. -/
theorem spec_C4_asap_fallthrough (s : Seller) (a : Agent) (t : Int) (bd : Breakdown)
    (hT : s.timeline.getD "3-6 months" = "ASAP")
    (hA : a.availability.getD "immediate" ≠ "immediate")
    (h : calculate_match_score s a = some (t, bd)) :
    bd.timeline = 8 := by
  obtain ⟨hbd, -⟩ := calculate_match_score_eq_some s a t bd h
  subst hbd
  show timelineScore s a = 8
  unfold timelineScore
  rw [hT, if_neg (fun hc => hA hc.2), if_neg (by decide)]

/-- Scenario B requester: timeline ASAP, everything else absent. -/
def sellerB : Seller := { timeline := some "ASAP" }

/-- Scenario B candidate: availability "1 week", everything else absent. -/
def agentB : Agent := { availability := some "1 week" }

/-- Concrete Scenario B scoring fact used by the C4 witness. -/
theorem scoreB_eq : calculate_match_score sellerB agentB =
    some (83, ⟨25, 20, 8, 10, 8, 4, 5, 3⟩) := by
  norm_num [calculate_match_score, locationScore, priceScore, timelineScore,
    communicationScore, experienceScore, specializationScore, personalityScore,
    techSavvyScore, sumB, mlBonus, pymin, sellerB, agentB]
  decide

/-- Witness for C4 at the Scenario B inputs. -/
theorem spec_C4_asap_fallthrough_witness :
    sellerB.timeline.getD "3-6 months" = "ASAP" ∧
    agentB.availability.getD "immediate" ≠ "immediate" ∧
    calculate_match_score sellerB agentB = some (83, ⟨25, 20, 8, 10, 8, 4, 5, 3⟩) ∧
    (⟨25, 20, 8, 10, 8, 4, 5, 3⟩ : Breakdown).timeline = 8 :=
  ⟨rfl, by decide, scoreB_eq,
    spec_C4_asap_fallthrough sellerB agentB 83 _ rfl (by decide) scoreB_eq⟩

/-- C7: on the Scenario A pair the breakdown entries sum to 100 and the
returned total is exactly 100, no bonus applying. -/
theorem spec_C7_scenario_A :
    calculate_match_score sellerA agentA =
      some (100, (⟨25, 20, 15, 10, 10, 10, 5, 5⟩ : Breakdown)) ∧
    sumB ⟨25, 20, 15, 10, 10, 10, 5, 5⟩ = 100 :=
  ⟨scoreA_eq, by decide⟩

/-- C8: `Score` and `Rank` are deterministic — two calls on equal inputs
return identical totals, breakdowns and output orders. -/
theorem spec_C8_determinism :
    (∀ s1 s2 : Seller, ∀ a1 a2 : Agent, s1 = s2 → a1 = a2 →
      calculate_match_score s1 a1 = calculate_match_score s2 a2) ∧
    (∀ s1 s2 : Seller, ∀ l1 l2 : List Agent, s1 = s2 → l1 = l2 →
      rank_agents s1 l1 = rank_agents s2 l2) :=
  ⟨fun _ _ _ _ h1 h2 => by rw [h1, h2], fun _ _ _ _ h1 h2 => by rw [h1, h2]⟩

/-- Witness for C8 at the Scenario A inputs. -/
theorem spec_C8_determinism_witness :
    calculate_match_score sellerA agentA = calculate_match_score sellerA agentA ∧
    rank_agents sellerA [agentA] = rank_agents sellerA [agentA] :=
  ⟨spec_C8_determinism.1 sellerA sellerA agentA agentA rfl rfl,
    spec_C8_determinism.2 sellerA sellerA [agentA] [agentA] rfl rfl⟩

instance : IsTotal Agent rankRel := ⟨fun a b => le_total (rankKey b) (rankKey a)⟩

instance : IsTrans Agent rankRel := ⟨fun _ _ _ hab hbc => le_trans hbc hab⟩

/-- Inserting an element into a list puts it in front of every element of
equal sort key, since only strictly greater keys are passed over. -/
theorem filter_orderedInsert_rankKey (t : Int) (x : Agent) (l : List Agent) :
    (l.orderedInsert rankRel x).filter (fun y => rankKey y == t) =
      if rankKey x = t then x :: l.filter (fun y => rankKey y == t)
      else l.filter (fun y => rankKey y == t) := by
  induction l with
  | nil =>
    by_cases hxt : rankKey x = t
    · simp [List.orderedInsert, List.filter, hxt]
    · have hb : (rankKey x == t) = false := by simp [beq_eq_false_iff_ne, hxt]
      simp [List.orderedInsert, List.filter, hb, hxt]
  | cons y ys ih =>
    simp only [List.orderedInsert]
    by_cases hxy : rankRel x y
    · rw [if_pos hxy]
      by_cases hxt : rankKey x = t <;> simp [List.filter_cons, hxt]
    · rw [if_neg hxy]
      have hlt : rankKey x < rankKey y := lt_of_not_le hxy
      by_cases hxt : rankKey x = t
      · have hyt : (rankKey y == t) = false := by
          simp only [beq_eq_false_iff_ne]
          omega
        simp [List.filter_cons, hyt, ih, hxt]
      · by_cases hyt : rankKey y = t <;>
          simp [List.filter_cons, hyt, ih, hxt]

/-- Stability of the descending insertion sort: the sublist of elements
with any fixed sort key is unchanged by sorting. -/
theorem filter_insertionSort_rankKey (t : Int) (l : List Agent) :
    (l.insertionSort rankRel).filter (fun y => rankKey y == t) =
      l.filter (fun y => rankKey y == t) := by
  induction l with
  | nil => rfl
  | cons x xs ih =>
    simp only [List.insertionSort, filter_orderedInsert_rankKey, List.filter_cons, ih]
    by_cases hxt : rankKey x = t <;> simp [hxt]

/-- A successful `mapM` over `Option` preserves the list length. -/
theorem mapM_option_length {α β : Type} (f : α → Option β) :
    ∀ l : List α, ∀ r : List β, l.mapM f = some r → r.length = l.length := by
  intro l
  induction l with
  | nil => intro r h; simp only [List.mapM_nil, Option.pure_def, Option.some.injEq] at h; simp [← h]
  | cons x xs ih =>
    intro r h
    simp only [List.mapM_cons, Option.pure_def, Option.bind_eq_bind, Option.bind_eq_some,
      Option.some.injEq] at h
    obtain ⟨y, -, ys, hys, hr⟩ := h
    simp [← hr, ih ys hys]

/-- C3: `rank_agents` is a stable descending sort on total score — the
output is sorted by descending `match_score`, has one scored record per
input record in input order, and for every fixed total the candidates of
that total appear in the output in exactly their input order, with no
secondary tie-breaking key. -/
theorem spec_C3_rank_stable (s : Seller) (agents scored : List Agent) (t : Int)
    (h : agents.mapM (addScore s) = some scored) :
    rank_agents s agents = some (scored.insertionSort rankRel) ∧
    scored.length = agents.length ∧
    List.Sorted rankRel (scored.insertionSort rankRel) ∧
    (scored.insertionSort rankRel).filter (fun y => rankKey y == t) =
      scored.filter (fun y => rankKey y == t) := by
  refine ⟨?_, mapM_option_length _ _ _ h, List.sorted_insertionSort rankRel scored,
    filter_insertionSort_rankKey t scored⟩
  unfold rank_agents
  rw [h]

/-- Requester with every key absent (all scoring defaults apply). -/
def seller0 : Seller := {}

/-- Tie candidate X: every key absent. -/
def agentX : Agent := {}

/-- Low-score candidate Y: average sale price far from the default anchor. -/
def agentY : Agent := { avg_sale_price := some 900000 }

/-- Tie candidate Z: average sale price close to the default anchor. -/
def agentZ : Agent := { avg_sale_price := some 520000 }

/-- Concrete scoring fact for candidate X. -/
theorem scoreX_eq : calculate_match_score seller0 agentX =
    some (87, ⟨25, 20, 12, 10, 8, 4, 5, 3⟩) := by
  norm_num [calculate_match_score, locationScore, priceScore, timelineScore,
    communicationScore, experienceScore, specializationScore, personalityScore,
    techSavvyScore, sumB, mlBonus, pymin, seller0, agentX]
  decide

/-- Concrete scoring fact for candidate Y. -/
theorem scoreY_eq : calculate_match_score seller0 agentY =
    some (72, ⟨25, 5, 12, 10, 8, 4, 5, 3⟩) := by
  norm_num [calculate_match_score, locationScore, priceScore, timelineScore,
    communicationScore, experienceScore, specializationScore, personalityScore,
    techSavvyScore, sumB, mlBonus, pymin, seller0, agentY]
  decide

/-- Concrete scoring fact for candidate Z. -/
theorem scoreZ_eq : calculate_match_score seller0 agentZ =
    some (87, ⟨25, 20, 12, 10, 8, 4, 5, 3⟩) := by
  norm_num [calculate_match_score, locationScore, priceScore, timelineScore,
    communicationScore, experienceScore, specializationScore, personalityScore,
    techSavvyScore, sumB, mlBonus, pymin, seller0, agentZ]
  decide

/-- Candidate X after `rank_agents` wrote its score keys. -/
def agentXS : Agent :=
  { agentX with match_score := some 87, match_breakdown := some ⟨25, 20, 12, 10, 8, 4, 5, 3⟩ }

/-- Candidate Y after `rank_agents` wrote its score keys. -/
def agentYS : Agent :=
  { agentY with match_score := some 72, match_breakdown := some ⟨25, 5, 12, 10, 8, 4, 5, 3⟩ }

/-- Candidate Z after `rank_agents` wrote its score keys. -/
def agentZS : Agent :=
  { agentZ with match_score := some 87, match_breakdown := some ⟨25, 20, 12, 10, 8, 4, 5, 3⟩ }

/-- Concrete scoring pass over the list `[X, Y, Z]`, where X and Z tie at
total 87 and Y scores 72. -/
theorem mapXYZ_eq : List.mapM (addScore seller0) [agentX, agentY, agentZ] =
    some [agentXS, agentYS, agentZS] := by
  simp [List.mapM, List.mapM.loop, addScore, scoreX_eq, scoreY_eq, scoreZ_eq,
    agentXS, agentYS, agentZS]

/-- Witness for C3 on a list with a tie at total 87. -/
theorem spec_C3_rank_stable_witness :
    List.mapM (addScore seller0) [agentX, agentY, agentZ] =
      some [agentXS, agentYS, agentZS] ∧
    (rank_agents seller0 [agentX, agentY, agentZ] =
        some ([agentXS, agentYS, agentZS].insertionSort rankRel) ∧
      ([agentXS, agentYS, agentZS] : List Agent).length =
        ([agentX, agentY, agentZ] : List Agent).length ∧
      List.Sorted rankRel ([agentXS, agentYS, agentZS].insertionSort rankRel) ∧
      ([agentXS, agentYS, agentZS].insertionSort rankRel).filter (fun y => rankKey y == 87) =
        [agentXS, agentYS, agentZS].filter (fun y => rankKey y == 87)) :=
  ⟨mapXYZ_eq, spec_C3_rank_stable seller0 [agentX, agentY, agentZ]
    [agentXS, agentYS, agentZS] 87 mapXYZ_eq⟩

/-- A Defer step from a non-terminal state stays non-terminal: the list
grows by one exactly as the cursor advances by one. -/
theorem deferLead_nonterminal {α : Type} (st : LeadQueue α)
    (h : st.lead_index < st.seller_leads.length) :
    (deferLead st).lead_index < (deferLead st).seller_leads.length := by
  simp only [deferLead, dif_pos h, List.length_append, List.length_cons]
  omega

/-- Any run of Defer decisions from a non-terminal state stays
non-terminal. -/
theorem deferN_nonterminal {α : Type} :
    ∀ (n : Nat) (st : LeadQueue α), st.lead_index < st.seller_leads.length →
      (deferN n st).lead_index < (deferN n st).seller_leads.length
  | 0, _, h => h
  | n + 1, st, h => deferN_nonterminal n (deferLead st) (deferLead_nonterminal st h)

/-- C5: a Defer decision appends the candidate at the cursor to the tail
of the iterated list (length grows by one) and advances the cursor by
one, and a run that defers every presented candidate keeps the cursor
strictly below the length in every reached state, never satisfying the
terminal condition. -/
theorem spec_C5_defer_never_terminates {α : Type} (st : LeadQueue α) (n : Nat)
    (h : st.lead_index < st.seller_leads.length) :
    (deferLead st).seller_leads =
      st.seller_leads ++ [st.seller_leads.get ⟨st.lead_index, h⟩] ∧
    (deferLead st).seller_leads.length = st.seller_leads.length + 1 ∧
    (deferLead st).lead_index = st.lead_index + 1 ∧
    (deferN n st).lead_index < (deferN n st).seller_leads.length ∧
    (deferN n st).lead_index ≠ (deferN n st).seller_leads.length := by
  have hn := deferN_nonterminal n st h
  refine ⟨?_, ?_, ?_, hn, by omega⟩ <;>
    simp [deferLead, dif_pos h]

/-- Witness for C5: a three-lead queue deferred five times in a row. -/
theorem spec_C5_defer_never_terminates_witness :
    (0 : Nat) < ([10, 20, 30] : List Nat).length ∧
    ((deferLead (⟨[10, 20, 30], 0, [], []⟩ : LeadQueue Nat)).seller_leads =
        [10, 20, 30] ++ [([10, 20, 30] : List Nat).get ⟨0, by decide⟩] ∧
      (deferLead (⟨[10, 20, 30], 0, [], []⟩ : LeadQueue Nat)).seller_leads.length = 3 + 1 ∧
      (deferLead (⟨[10, 20, 30], 0, [], []⟩ : LeadQueue Nat)).lead_index = 0 + 1 ∧
      (deferN 5 (⟨[10, 20, 30], 0, [], []⟩ : LeadQueue Nat)).lead_index <
        (deferN 5 (⟨[10, 20, 30], 0, [], []⟩ : LeadQueue Nat)).seller_leads.length ∧
      (deferN 5 (⟨[10, 20, 30], 0, [], []⟩ : LeadQueue Nat)).lead_index ≠
        (deferN 5 (⟨[10, 20, 30], 0, [], []⟩ : LeadQueue Nat)).seller_leads.length) :=
  ⟨by decide, spec_C5_defer_never_terminates (⟨[10, 20, 30], 0, [], []⟩ : LeadQueue Nat) 5
    (by decide)⟩

/-- C6: Like appends the presented candidate to the tail of the accepted
collection and Super Like inserts it (with its priority attribute set) at
the head, each advancing the cursor by one; from an empty accepted
collection, Accept(X) then PriorityAccept(Y) leaves the accepted
collection holding Y then X. -/
theorem spec_C6_accept_ordering (st : SwipeQueue) (X Y : Agent)
    (h : st.swipe_index < st.current_matches.length) :
    (likeAgent st).liked_agents =
      st.liked_agents ++ [st.current_matches.get ⟨st.swipe_index, h⟩] ∧
    (likeAgent st).swipe_index = st.swipe_index + 1 ∧
    (superLikeAgent st).liked_agents =
      markSuperLiked (st.current_matches.get ⟨st.swipe_index, h⟩) :: st.liked_agents ∧
    (superLikeAgent st).swipe_index = st.swipe_index + 1 ∧
    (superLikeAgent (likeAgent ⟨[X, Y], 0, [], []⟩)).liked_agents =
      [markSuperLiked Y, X] ∧
    (superLikeAgent (likeAgent ⟨[X, Y], 0, [], []⟩)).swipe_index = 2 := by
  refine ⟨?_, ?_, ?_, ?_, ?_, ?_⟩ <;>
    simp [likeAgent, superLikeAgent, dif_pos h, markSuperLiked]

/-- Witness for C6 at concrete agents. -/
theorem spec_C6_accept_ordering_witness :
    (0 : Nat) < ([agentA] : List Agent).length ∧
    ((likeAgent ⟨[agentA], 0, [], []⟩).liked_agents =
        [] ++ [([agentA] : List Agent).get ⟨0, by decide⟩] ∧
      (likeAgent ⟨[agentA], 0, [], []⟩).swipe_index = 0 + 1 ∧
      (superLikeAgent ⟨[agentA], 0, [], []⟩).liked_agents =
        markSuperLiked (([agentA] : List Agent).get ⟨0, by decide⟩) :: [] ∧
      (superLikeAgent ⟨[agentA], 0, [], []⟩).swipe_index = 0 + 1 ∧
      (superLikeAgent (likeAgent ⟨[agentX, agentY], 0, [], []⟩)).liked_agents =
        [markSuperLiked agentY, agentX] ∧
      (superLikeAgent (likeAgent ⟨[agentX, agentY], 0, [], []⟩)).swipe_index = 2) :=
  ⟨by decide, spec_C6_accept_ordering ⟨[agentA], 0, [], []⟩ agentX agentY (by decide)⟩

/-- An agent record carrying the two keys that `rank_agents` writes. -/
def hasScoreKeys (a : Agent) : Prop :=
  a.match_score ≠ none ∧ a.match_breakdown ≠ none

/-- The scoring pass leaves the store length unchanged. -/
theorem writeScores_length (s : Seller) :
    ∀ (ps : List Nat) (store store' : AgentStore),
      writeScores s ps store = some store' → store'.length = store.length := by
  intro ps
  induction ps with
  | nil =>
    intro store store' h
    simp only [writeScores, Option.some.injEq] at h
    rw [h]
  | cons p ps ih =>
    intro store store' h
    rcases hc : calculate_match_score s (store.getD p {}) with _ | sb
    · simp only [writeScores, hc] at h
      exact Option.noConfusion h
    · simp only [writeScores, hc] at h
      rw [ih _ _ h, List.length_set]

/-- The scoring pass never erases score keys already present. -/
theorem writeScores_hasKeys_mono (s : Seller) :
    ∀ (ps : List Nat) (store store' : AgentStore) (q : Nat),
      writeScores s ps store = some store' →
      hasScoreKeys (store.getD q {}) → hasScoreKeys (store'.getD q {}) := by
  intro ps
  induction ps with
  | nil =>
    intro store store' q h hq
    simp only [writeScores, Option.some.injEq] at h
    rw [← h]
    exact hq
  | cons p ps ih =>
    intro store store' q h hq
    rcases hc : calculate_match_score s (store.getD p {}) with _ | sb
    · simp only [writeScores, hc] at h
      exact Option.noConfusion h
    · simp only [writeScores, hc] at h
      refine ih _ _ q h ?_
      by_cases hqp : p = q
      · subst hqp
        by_cases hlt : p < store.length
        · simp [List.getD_eq_getElem?_getD, List.getElem?_set_self hlt, hasScoreKeys]
        · rw [List.set_eq_of_length_le (by omega)]
          exact hq
      · simpa [List.getD_eq_getElem?_getD, List.getElem?_set_ne hqp] using hq

/-- The scoring pass writes both score keys into every record referenced
by the pointer list. -/
theorem writeScores_writes (s : Seller) :
    ∀ (ps : List Nat) (store store' : AgentStore),
      writeScores s ps store = some store' →
      ∀ p ∈ ps, p < store.length → hasScoreKeys (store'.getD p {}) := by
  intro ps
  induction ps with
  | nil => intro store store' _ p hp; exact absurd hp (List.not_mem_nil p)
  | cons p0 ps ih =>
    intro store store' h p hp hlen
    rcases hc : calculate_match_score s (store.getD p0 {}) with _ | sb
    · simp only [writeScores, hc] at h
      exact Option.noConfusion h
    · simp only [writeScores, hc] at h
      rcases List.mem_cons.mp hp with hp0 | hmem
      · subst hp0
        refine writeScores_hasKeys_mono s ps _ _ p h ?_
        simp [List.getD_eq_getElem?_getD, List.getElem?_set_self hlen, hasScoreKeys]
      · exact ih _ _ h p hmem (by rw [List.length_set]; exact hlen)

/-- Concrete heap-model run: two records scoring 72 and 87 in input order
come back with the index list reordered to `[1, 0]`. -/
theorem rankHeapYZ_eq :
    rank_agents_heap seller0 [agentY, agentZ] [0, 1] =
      some ([agentYS, agentZS], [1, 0]) := by
  have h1 : writeScores seller0 [0, 1] [agentY, agentZ] = some [agentYS, agentZS] := by
    simp [writeScores, scoreY_eq, scoreZ_eq, agentYS, agentZS]
  unfold rank_agents_heap
  rw [h1]
  decide

/-- C10: `rank_agents` works in place on its argument. In the heap model
the call returns the caller's own index list reordered (a permutation of
the argument, stably sorted by descending score) over the same store,
every record referenced by the caller now carries the written keys
`match_score` and `match_breakdown`, and on the concrete two-record run
the returned order `[1, 0]` differs from the caller's original `[0, 1]`,
so neither the original order nor the original records survive the call. -/
theorem spec_C10_rank_mutates (s : Seller) (store store' : AgentStore)
    (ptrs ptrs' : List Nat)
    (hvalid : ∀ p ∈ ptrs, p < store.length)
    (h : rank_agents_heap s store ptrs = some (store', ptrs')) :
    ptrs' = ptrs.insertionSort (ptrRel store') ∧
    ptrs'.Perm ptrs ∧
    store'.length = store.length ∧
    (∀ p ∈ ptrs,
      (store'.getD p {}).match_score ≠ none ∧ (store'.getD p {}).match_breakdown ≠ none) ∧
    rank_agents_heap seller0 [agentY, agentZ] [0, 1] =
      some ([agentYS, agentZS], [1, 0]) := by
  rcases hw : writeScores s ptrs store with _ | st1
  · rw [rank_agents_heap, hw] at h
    exact Option.noConfusion h
  · rw [rank_agents_heap, hw] at h
    have h2 : (st1, ptrs.insertionSort (ptrRel st1)) = (store', ptrs') :=
      Option.some.inj h
    injection h2 with hp hq0
    have hq : ptrs' = ptrs.insertionSort (ptrRel store') := by rw [← hq0, hp]
    have hw' : writeScores s ptrs store = some store' := by rw [hw, hp]
    refine ⟨hq, ?_, writeScores_length s ptrs store store' hw', ?_, rankHeapYZ_eq⟩
    · rw [hq]
      exact List.perm_insertionSort (ptrRel store') ptrs
    · intro p hp2
      exact writeScores_writes s ptrs store store' hw' p hp2 (hvalid p hp2)

/-- Witness for C10 on the concrete two-record heap. -/
theorem spec_C10_rank_mutates_witness :
    (∀ p ∈ ([0, 1] : List Nat), p < ([agentY, agentZ] : AgentStore).length) ∧
    rank_agents_heap seller0 [agentY, agentZ] [0, 1] =
      some ([agentYS, agentZS], [1, 0]) ∧
    (([1, 0] : List Nat) = ([0, 1] : List Nat).insertionSort (ptrRel [agentYS, agentZS]) ∧
      ([1, 0] : List Nat).Perm [0, 1] ∧
      ([agentYS, agentZS] : AgentStore).length = ([agentY, agentZ] : AgentStore).length ∧
      (∀ p ∈ ([0, 1] : List Nat),
        (([agentYS, agentZS] : AgentStore).getD p {}).match_score ≠ none ∧
          (([agentYS, agentZS] : AgentStore).getD p {}).match_breakdown ≠ none) ∧
      rank_agents_heap seller0 [agentY, agentZ] [0, 1] =
        some ([agentYS, agentZS], [1, 0])) :=
  ⟨by decide, rankHeapYZ_eq,
    spec_C10_rank_mutates seller0 [agentY, agentZ] [agentYS, agentZS] [0, 1] [1, 0]
      (by decide) rankHeapYZ_eq⟩

/-- The generation loop produces exactly one agent per iteration. -/
theorem genLoop_length (zip_code city state : String) :
    ∀ (n i g : Nat), (genLoop zip_code city state n i g).1.length = n := by
  intro n
  induction n with
  | zero => intro i g; rfl
  | succ n ih => intro i g; simp [genLoop, ih]

/-- C9: for every location key the generator returns exactly `count`
candidate profiles (it is total, never raising), and an unrecognized state
resolves to the generic brokerage table and the generic area-code table. -/
theorem spec_C9_generator_fallback (zip_code city state : String) (count g : Nat) :
    (generate_agents_for_location zip_code city state count g).1.length = count ∧
    (state ∉ (["CA", "NY", "TX", "FL"] : List String) →
      brokeragesFor state = ["RE/MAX", "Century 21", "Keller Williams", "Coldwell Banker"] ∧
      areaCodesFor state = ["555"]) := by
  refine ⟨genLoop_length zip_code city state count 0 g, fun h => ?_⟩
  obtain ⟨h1, h2, h3, h4⟩ : state ≠ "CA" ∧ state ≠ "NY" ∧ state ≠ "TX" ∧ state ≠ "FL" := by
    simp only [List.mem_cons, List.not_mem_nil, or_false, not_or] at h
    exact ⟨h.1, h.2.1, h.2.2.1, h.2.2.2⟩
  have b1 : (state == "CA") = false := beq_eq_false_iff_ne.mpr h1
  have b2 : (state == "NY") = false := beq_eq_false_iff_ne.mpr h2
  have b3 : (state == "TX") = false := beq_eq_false_iff_ne.mpr h3
  have b4 : (state == "FL") = false := beq_eq_false_iff_ne.mpr h4
  constructor
  · simp [brokeragesFor, brokerages_by_state, List.lookup, b1, b2, b3, b4]
  · simp [areaCodesFor, area_codes, List.lookup, b1, b2, b3, b4]

/-- Witness for C9 at the unconfigured state "ZZ". -/
theorem spec_C9_generator_fallback_witness :
    ("ZZ" : String) ∉ (["CA", "NY", "TX", "FL"] : List String) ∧
    ((generate_agents_for_location "00000" "Springfield" "ZZ" 3 0).1.length = 3 ∧
      (("ZZ" : String) ∉ (["CA", "NY", "TX", "FL"] : List String) →
        brokeragesFor "ZZ" = ["RE/MAX", "Century 21", "Keller Williams", "Coldwell Banker"] ∧
        areaCodesFor "ZZ" = ["555"])) :=
  ⟨by decide, spec_C9_generator_fallback "00000" "Springfield" "ZZ" 3 0⟩
